import Mathlib

/-!
Shallow embedding of the Competition Ledger of the Dino Challenge repository
(`src/app.py`, class `DatabaseManager` plus the Flask/scheduler glue that the
spec's claims reference).  Rows of the four SQL tables created by
`init_database` (users, scores, payments, subscriptions) become Lean
structures; the database becomes a `DBState` of row lists; each Python method
becomes a pure function from state (and the clock values the method reads) to
result and new state.  Monetary amounts are `Rat` (the source uses exact
`Decimal` arithmetic); timestamps are seconds-since-epoch `Nat`s.
-/

namespace DinoChallenge

/-- Row of the `users` table.  Only the columns the verified claims read are
modelled: `telegram_id` and the denormalized `has_paid_current_month` flag
(schema default `FALSE`).  Display/profile columns are irrelevant to every
claim and omitted. -/
structure UserRow where
  telegram_id : Nat
  has_paid_current_month : Bool
deriving DecidableEq, Repr

/-- Row of the `scores` table: `telegram_id`, `score`, `month_year`
(format `YYYY-MM`) and `created_at` (UTC seconds). -/
structure ScoreRow where
  telegram_id : Nat
  score : Nat
  month_year : String
  created_at : Nat
deriving DecidableEq, Repr

/-- Row of the `payments` table: `telegram_id`, `amount`, `payment_type`
(`one_time` or `subscription`), `month_year`, `status` (schema default
`completed`; the only other value the source ever mentions is `expired`). -/
structure PaymentRow where
  telegram_id : Nat
  amount : Rat
  payment_type : String
  month_year : String
  status : String
deriving DecidableEq, Repr

/-- Row of the `subscriptions` table: `telegram_id`, unique
`paypal_subscription_id`, `amount` and `status` (default `active`,
set to `cancelled` by `cancel_subscription`). -/
structure SubscriptionRow where
  telegram_id : Nat
  paypal_subscription_id : String
  amount : Rat
  status : String
deriving DecidableEq, Repr

/-- The persistent store: exactly the four tables `init_database` creates.
There is no table for monthly winners records. -/
structure DBState where
  users : List UserRow
  scores : List ScoreRow
  payments : List PaymentRow
  subscriptions : List SubscriptionRow
deriving DecidableEq, Repr

/-- The empty database, as produced by `init_database` on a fresh file. -/
def emptyDB : DBState := ⟨[], [], [], []⟩

/-- Day key of a UTC timestamp under the source's fixed UTC+2 offset:
`add_score` compares `DATE(created_at, '+2 hours')` with
`datetime.now(timezone(timedelta(hours=2))).date()`, i.e. both sides shift
by two hours before truncating to the day. -/
def dayKey (t : Nat) : Nat := (t + 7200) / 86400

/-- Flag of the first user row matching `telegram_id` in a row list,
`false` when absent. -/
def flagOf (l : List UserRow) (tid : Nat) : Bool :=
  ((l.find? fun u => u.telegram_id == tid).map
    fun u => u.has_paid_current_month).getD false

/-- `SELECT has_paid_current_month FROM users WHERE telegram_id = ?` with
`fetchone`: the flag of the first matching user row, `false` when the user
row is absent (the source then skips the flag branch). -/
def hasPaidFlag (s : DBState) (tid : Nat) : Bool :=
  flagOf s.users tid

/-- `EXISTS (SELECT 1 FROM payments WHERE telegram_id = ? AND month_year = ?
AND status = 'completed')`.  This is also, word for word, the spec's
"a completed Payment exists for (u, m)". -/
def completedPaymentExists (s : DBState) (tid : Nat) (m : String) : Bool :=
  s.payments.any fun p =>
    p.telegram_id == tid && p.month_year == m && p.status == "completed"

/-- `EXISTS (SELECT 1 FROM subscriptions WHERE telegram_id = ? AND
status = 'active')`; equally the spec's "an active Subscription exists
for u". -/
def activeSubscriptionExists (s : DBState) (tid : Nat) : Bool :=
  s.subscriptions.any fun r => r.telegram_id == tid && r.status == "active"

/-- The spec's access predicate (§4.1 / §8): a completed Payment for the
month, or an active Subscription — and nothing else.  Kept separate from
the source translation `check_user_access` so the two can be compared. -/
def specHasAccess (s : DBState) (tid : Nat) (m : String) : Bool :=
  completedPaymentExists s tid m || activeSubscriptionExists s tid

/-- `DatabaseManager.check_user_access`: first the cached
`has_paid_current_month` flag (granting immediately when set), then the
count of completed payments for the current month, then the count of
active subscriptions.  `current_month` is the `datetime.now().strftime`
value the method computes; it is passed explicitly here. -/
def check_user_access (s : DBState) (tid : Nat) (current_month : String) : Bool :=
  if hasPaidFlag s tid then true
  else if 0 < (s.payments.filter fun p =>
      p.telegram_id == tid && p.month_year == current_month
        && p.status == "completed").length then true
  else decide (0 < (s.subscriptions.filter fun r =>
      r.telegram_id == tid && r.status == "active").length)

/-- `DatabaseManager.create_or_get_user` restricted to the columns modelled:
returns the existing row when present, otherwise inserts a fresh row
(flag at its schema default `FALSE`). -/
def create_or_get_user (s : DBState) (tid : Nat) : UserRow × DBState :=
  match s.users.find? (fun u => u.telegram_id == tid) with
  | some u => (u, s)
  | none =>
      let u : UserRow := ⟨tid, false⟩
      (u, { s with users := s.users ++ [u] })

/-- Count of score rows of `tid` whose UTC+2 day key is `d`, over a list of
score rows (`SELECT COUNT(*) FROM scores WHERE telegram_id = ? AND
DATE(created_at, '+2 hours') = ?`). -/
def countScoresOn (l : List ScoreRow) (tid d : Nat) : Nat :=
  (l.filter fun r => r.telegram_id == tid && dayKey r.created_at == d).length

/-- The daily games count of a user in a state (the derived
DailyAttemptCounter of the spec's data model). -/
def daily_games_count (s : DBState) (tid d : Nat) : Nat :=
  countScoresOn s.scores tid d

/-- Result dictionary of `DatabaseManager.add_score`, one constructor per
`return` shape: access denial (`success=False, error='Accès premium
requis'`), quota exhaustion (`success=False, daily_games, remaining_games=0,
limit_reached=True`), and acceptance (`success=True` with the updated
counters). -/
inductive AddScoreResult where
  | accessDenied : AddScoreResult
  | quotaExceeded (daily_games remaining_games : Nat) : AddScoreResult
  | accepted (daily_games remaining_games : Nat) (limit_reached : Bool) : AddScoreResult
deriving DecidableEq, Repr

/-- `DatabaseManager.add_score`: ensure the user row exists, check premium
access, count today's games in the fixed UTC+2 day, refuse with
`remaining_games = 0` when five are already recorded, otherwise insert the
score row for the current month and report the updated counters.  `now` is
the UTC timestamp the method reads from the clock. -/
def add_score (s : DBState) (tid score now : Nat) (current_month : String) :
    AddScoreResult × DBState :=
  let s1 := (create_or_get_user s tid).2
  if check_user_access s1 tid current_month then
    let today := dayKey now
    let daily_games := daily_games_count s1 tid today
    if 5 ≤ daily_games then
      (.quotaExceeded daily_games 0, s1)
    else
      let s2 := { s1 with scores := s1.scores ++ [⟨tid, score, current_month, now⟩] }
      let dg := daily_games + 1
      if 5 ≤ dg then (.accepted dg 0 true, s2)
      else (.accepted dg (5 - dg) false, s2)
  else
    (.accessDenied, s1)

/-- Distinct elements of a list in order of first appearance, the group keys
a `GROUP BY s.telegram_id` scan produces over the filtered score rows
(`seen` accumulates the keys already emitted). -/
def firstAppearanceAux : List Nat → List Nat → List Nat
  | [], _ => []
  | x :: xs, seen =>
      if seen.contains x then firstAppearanceAux xs seen
      else x :: firstAppearanceAux xs (x :: seen)

/-- Distinct elements of a list, first appearance first. -/
def firstAppearance (l : List Nat) : List Nat := firstAppearanceAux l []

/-- The leaderboard query's `WHERE` access filter on a (grouped) player:
`COALESCE(u.has_paid_current_month, 0) = 1` over the `LEFT JOIN` (absent
user row reads as false) `OR` the two `EXISTS` subqueries on payments for
the requested month and on active subscriptions. -/
def leaderboard_access (s : DBState) (tid : Nat) (m : String) : Bool :=
  hasPaidFlag s tid || completedPaymentExists s tid m || activeSubscriptionExists s tid

/-- One row of `DatabaseManager.get_leaderboard`'s result: player id,
`MAX(s.score)` and `COUNT(s.id)` over the player's score rows for the
month.  Display-name columns are omitted (no claim reads them). -/
structure LeaderboardEntry where
  telegram_id : Nat
  best_score : Nat
  total_games : Nat
deriving DecidableEq, Repr

/-- Insert an entry into a best-score-descending list, before the first
entry it is not smaller than (a stable descending insertion, as any
implementation of the query's `ORDER BY best_score DESC` performs: the
sort key is `best_score` alone and timestamps are never consulted). -/
def insertDesc (e : LeaderboardEntry) : List LeaderboardEntry → List LeaderboardEntry
  | [] => [e]
  | y :: ys => if y.best_score ≤ e.best_score then e :: y :: ys else y :: insertDesc e ys

/-- Stable sort of leaderboard entries by `best_score` descending. -/
def sortDesc : List LeaderboardEntry → List LeaderboardEntry
  | [] => []
  | x :: xs => insertDesc x (sortDesc xs)

/-- `DatabaseManager.get_leaderboard` (SQLite and PostgreSQL branches agree):
score rows of the month, grouped by `telegram_id`, groups filtered by the
access condition, aggregated to `MAX(score)` / `COUNT(*)`, ordered by
`best_score DESC` only (the query has no tie-break term), truncated to
`limit`. -/
def get_leaderboard (s : DBState) (m : String) (limit : Nat) : List LeaderboardEntry :=
  let ms := s.scores.filter fun r => r.month_year == m
  let ids := (firstAppearance (ms.map fun r => r.telegram_id)).filter
    fun tid => leaderboard_access s tid m
  let entries := ids.map fun tid =>
    let rows := ms.filter fun r => r.telegram_id == tid
    { telegram_id := tid
      best_score := (rows.map fun r => r.score).foldl Nat.max 0
      total_games := rows.length }
  (sortDesc entries).take limit

/-- Earliest `created_at` among a player's score rows of value `v` in month
`m` — the spec's "earliest achieving timestamp" of a best score, stated
from the spec's words for comparison with the query's actual order. -/
def earliestTimestampAt (s : DBState) (m : String) (tid v : Nat) : Option Nat :=
  ((s.scores.filter fun r =>
      r.telegram_id == tid && r.month_year == m && r.score == v).map
    fun r => r.created_at).min?

/-- Result of `DatabaseManager.calculate_monthly_prizes`: total of completed
payments for the month, the reported player count, and the four fixed
percentage shares. -/
structure PrizeInfo where
  month_year : String
  total_amount : Rat
  total_players : Nat
  first : Rat
  second : Rat
  third : Rat
  organization_fees : Rat
deriving DecidableEq, Repr

/-- `DatabaseManager.calculate_monthly_prizes`: `SELECT SUM(amount),
COUNT(*) FROM payments WHERE month_year = ? AND status = 'completed'`,
then the fixed `Decimal` splits 40% / 15% / 5% / 40%.  Note the source's
`COUNT(*)` counts payment rows, not distinct users. -/
def calculate_monthly_prizes (s : DBState) (m : String) : PrizeInfo :=
  let completed := s.payments.filter fun p =>
    p.month_year == m && p.status == "completed"
  let total_amount : Rat := (completed.map fun p => p.amount).sum
  { month_year := m
    total_amount := total_amount
    total_players := completed.length
    first := total_amount * (40 / 100 : Rat)
    second := total_amount * (15 / 100 : Rat)
    third := total_amount * (5 / 100 : Rat)
    organization_fees := total_amount * (40 / 100 : Rat) }

/-- The spec's `playerCount`: "distinct paying users for monthKey" — the
number of distinct `telegram_id`s among the completed payments of the
month, stated from the spec's words for comparison with the source's
row count. -/
def distinctPayingUsers (s : DBState) (m : String) : Nat :=
  (firstAppearance ((s.payments.filter fun p =>
    p.month_year == m && p.status == "completed").map fun p => p.telegram_id)).length

/-- Set the `has_paid_current_month` flag of every user row of `tid`
(`UPDATE users SET has_paid_current_month = 1 WHERE telegram_id = ?`). -/
def setPaidFlag (l : List UserRow) (tid : Nat) : List UserRow :=
  l.map fun u =>
    if u.telegram_id == tid then { u with has_paid_current_month := true } else u

/-- `DatabaseManager.record_payment`: ensure the user row exists, insert a
payment row for the current month (`status` takes its schema default
`completed`), then set the user's `has_paid_current_month` flag. -/
def record_payment (s : DBState) (tid : Nat) (amount : Rat)
    (ptype current_month : String) : Bool × DBState :=
  let s1 := (create_or_get_user s tid).2
  let p : PaymentRow :=
    { telegram_id := tid, amount := amount, payment_type := ptype
      month_year := current_month, status := "completed" }
  let s2 := { s1 with payments := s1.payments ++ [p] }
  (true, { s2 with users := setPaidFlag s2.users tid })

/-- `DatabaseManager.create_subscription`: ensure the user row exists, then
`INSERT OR REPLACE` keyed on `paypal_subscription_id` with status at its
schema default `active`. -/
def create_subscription (s : DBState) (tid : Nat) (subId : String)
    (amount : Rat) : Bool × DBState :=
  let s1 := (create_or_get_user s tid).2
  let kept := s1.subscriptions.filter fun r => !(r.paypal_subscription_id == subId)
  (true, { s1 with subscriptions :=
    kept ++ [⟨tid, subId, amount, "active"⟩] })

/-- `DatabaseManager.cancel_subscription`: `UPDATE subscriptions SET
status = 'cancelled' WHERE paypal_subscription_id = ?`. -/
def cancel_subscription (s : DBState) (subId : String) : Bool × DBState :=
  (true, { s with subscriptions := s.subscriptions.map fun r =>
    if r.paypal_subscription_id == subId then { r with status := "cancelled" } else r })

/-- `DatabaseManager.reset_monthly_leaderboard`: the body only logs and
returns `True` — its own comment says scores need no deletion because they
are filtered by `month_year`.  No table is written. -/
def reset_monthly_leaderboard (s : DBState) : Bool × DBState := (true, s)

/-- One winner notification payload built by
`DatabaseManager.get_monthly_winners` from the live leaderboard and the
prize split. -/
structure Winner where
  telegram_id : Nat
  position : Nat
  score : Nat
  prize : Rat
deriving DecidableEq, Repr

/-- `DatabaseManager.get_monthly_winners`: top three of the live leaderboard,
each paired with the prize of its rank.  Computed on the fly; nothing is
persisted. -/
def get_monthly_winners (s : DBState) (m : String) : List Winner :=
  let lb := get_leaderboard s m 3
  let pi := calculate_monthly_prizes s m
  lb.enum.map fun ip =>
    let position := ip.1 + 1
    let prize := if position == 1 then pi.first
      else if position == 2 then pi.second else pi.third
    { telegram_id := ip.2.telegram_id, position := position
      score := ip.2.best_score, prize := prize }

/-- Full application state around the store: the database, the set of
on-disk rollover marker files (`/tmp/dino_reset_{YYYY-MM}.flag`, one name
per month key), and the log of winner-notification batches emitted so far
(each batch keyed by the closed month it concerns). -/
structure AppState where
  db : DBState
  reset_flags : List String
  winnerEvents : List (String × List Winner)
deriving DecidableEq, Repr

/-- The empty application state: fresh database, no marker files, no
notifications sent. -/
def emptyApp : AppState := ⟨emptyDB, [], []⟩

/-- `check_monthly_reset` (the scheduled monthly rollover): on the first day
of a month, when no marker file exists for the current month, notify the
previous month's winners, call the (no-op) leaderboard reset, and write the
marker; otherwise do nothing.  `nowDay`/`nowMonth` are the clock values
`datetime.now()` provides, `prevMonth` the closed month the notifications
concern. -/
def check_monthly_reset (st : AppState) (nowDay : Nat)
    (nowMonth prevMonth : String) : AppState :=
  if nowDay = 1 then
    if st.reset_flags.contains nowMonth then st
    else
      let winners := get_monthly_winners st.db prevMonth
      let st1 := { st with winnerEvents := st.winnerEvents ++ [(prevMonth, winners)] }
      let db1 := (reset_monthly_leaderboard st1.db).2
      { st1 with db := db1, reset_flags := st1.reset_flags ++ [nowMonth] }
  else st

/-- Number of persisted MonthlyWinnersRecord rows for a month key.
`init_database` creates exactly the four tables mirrored by `DBState`
(users, scores, payments, subscriptions); the schema has no winners table
and no code path writes one, so the count is zero in every state. -/
def monthlyWinnersRecordCount (_s : DBState) (_m : String) : Nat := 0

/-- Failure of the ledger store (a raised database exception). -/
inductive StorageError where
  | unavailable : StorageError
deriving DecidableEq, Repr

/-- `check_user_access` as the caller sees it, store failures included: the
method's `try/except` catches every storage exception, logs it, and
`return False` — the same plain boolean an ordinary denial produces. -/
def check_user_access_handled (store : Except StorageError DBState)
    (tid : Nat) (m : String) : Bool :=
  match store with
  | .ok s => check_user_access s tid m
  | .error _ => false

/-- `DatabaseManager.has_valid_payment`: count of payment rows of the user
for the month with `amount > 0` (no status filter), as used by the
`/api/check_access` endpoint.  Its own `except` block catches every
storage error and returns `False`, so a store failure never escapes this
method. -/
def has_valid_payment (store : Except StorageError DBState) (tid : Nat)
    (m : String) : Bool :=
  match store with
  | .ok s =>
      decide (0 < (s.payments.filter fun p =>
        p.telegram_id == tid && p.month_year == m && 0 < p.amount).length)
  | .error _ => false

/-- `DatabaseManager.get_daily_games_count` (PostgreSQL branch, the deployed
configuration): count of the user's score rows whose UTC+2 day equals
`today`.  Its own `except` block catches every storage error and returns
`0`. -/
def get_daily_games_count (store : Except StorageError DBState)
    (tid today : Nat) : Nat :=
  match store with
  | .ok s => daily_games_count s tid today
  | .error _ => 0

/-- The fields of the `/api/check_access` JSON response the claims read. -/
structure AccessResponse where
  can_play : Bool
  mode : String
  unlimited : Bool
deriving DecidableEq, Repr

/-- The `/api/check_access` endpoint (`check_game_access`), for a request
carrying a valid `telegram_id`: demo mode always plays; in competition
mode the payment and daily-limit checks decide (`remaining =
5 - daily_games` as a signed value, `limit_reached` when it is not
positive).  The endpoint's own `except` fallback to demo mode is
unreachable by storage errors, because both database helpers it calls
(`has_valid_payment`, `get_daily_games_count`) swallow theirs and return
`False` / `0`; a store failure therefore takes the 402
`can_play = false` denial branch. -/
def check_game_access (store : Except StorageError DBState) (tid : Nat)
    (mode m : String) (today : Nat) : AccessResponse :=
  if mode == "demo" then ⟨true, "demo", true⟩
  else
    if has_valid_payment store tid m then
      let daily_games := get_daily_games_count store tid today
      if (5 : Int) - daily_games ≤ 0 then ⟨false, mode, false⟩
      else ⟨true, mode, false⟩
    else ⟨false, mode, false⟩

/-- The core's externally exposed operations (spec §6): score submission,
payment recording, subscription creation/cancellation, and the scheduled
rollover check.  Each constructor carries the clock values the underlying
source function reads.  (User-initiated profile erasure belongs to the
out-of-scope bot glue, not to this interface.) -/
inductive LedgerOp where
  | submitScore (tid score now : Nat) (month : String) : LedgerOp
  | recordPayment (tid : Nat) (amount : Rat) (ptype month : String) : LedgerOp
  | createSubscription (tid : Nat) (subId : String) (amount : Rat) : LedgerOp
  | cancelSubscription (subId : String) : LedgerOp
  | monthlyRollover (day : Nat) (nowMonth prevMonth : String) : LedgerOp

/-- One step of the system: apply a core operation to the application
state. -/
def step (st : AppState) : LedgerOp → AppState
  | .submitScore tid score now month =>
      { st with db := (add_score st.db tid score now month).2 }
  | .recordPayment tid amount ptype month =>
      { st with db := (record_payment st.db tid amount ptype month).2 }
  | .createSubscription tid subId amount =>
      { st with db := (create_subscription st.db tid subId amount).2 }
  | .cancelSubscription subId =>
      { st with db := (cancel_subscription st.db subId).2 }
  | .monthlyRollover day nowMonth prevMonth =>
      check_monthly_reset st day nowMonth prevMonth

/-! Concrete states used to evaluate the operations on explicit inputs. -/

/-- A user whose cached `has_paid_current_month` flag is set but who has no
payment row and no subscription row at all. -/
def stC1 : DBState := ⟨[⟨1, true⟩], [], [], []⟩

/-- Two flagged users with equal best score 100 in 2025-03; user 2 reached
it at timestamp 50, user 1 only at timestamp 100, yet user 1 precedes
user 2 both in id order and in score-row insertion order. -/
def stC3 : DBState :=
  ⟨[⟨1, true⟩, ⟨2, true⟩],
   [⟨1, 100, "2025-03", 100⟩, ⟨2, 100, "2025-03", 50⟩], [], []⟩

/-- Three completed payments of 11.00 each for 2025-04 (the spec's prize
scenario). -/
def stC5 : DBState :=
  ⟨[], [],
   [⟨1, 11, "one_time", "2025-04", "completed"⟩,
    ⟨2, 11, "one_time", "2025-04", "completed"⟩,
    ⟨3, 11, "one_time", "2025-04", "completed"⟩], []⟩

/-- App state holding one non-subscriber with a completed one-off payment
for the closed month 2025-03. -/
def stC6 : AppState :=
  ⟨⟨[⟨7, true⟩], [], [⟨7, 11, "one_time", "2025-03", "completed"⟩], []⟩, [], []⟩

/-- One user with two completed payment rows for the same month. -/
def stC8 : DBState :=
  ⟨[], [],
   [⟨9, 11, "one_time", "2025-03", "completed"⟩,
    ⟨9, 11, "one_time", "2025-03", "completed"⟩], []⟩

/-- A user with the cached flag set but no payment row and no subscription
row (the claim's "user without access"). -/
def stC10 : DBState := ⟨[⟨3, true⟩], [], [], []⟩

/-- A flagged user who already holds five score rows on UTC+2 day 0. -/
def stC2W : DBState :=
  ⟨[⟨4, true⟩],
   [⟨4, 10, "2025-03", 0⟩, ⟨4, 11, "2025-03", 1⟩, ⟨4, 12, "2025-03", 2⟩,
    ⟨4, 13, "2025-03", 3⟩, ⟨4, 14, "2025-03", 4⟩], [], []⟩

/-- A database whose single user has the cached flag set. -/
def stFlag : DBState := ⟨[⟨2, true⟩], [], [], []⟩

/-- App state around `stFlag`. -/
def stFlagApp : AppState := ⟨stFlag, [], []⟩

/-! Helper lemmas about the embedded operations, shared by the claim
theorems below. -/

theorem find?_append_of_some {α : Type} {p : α → Bool} {l₁ : List α}
    {a : α} (l₂ : List α) (h : l₁.find? p = some a) :
    (l₁ ++ l₂).find? p = some a := by
  induction l₁ with
  | nil => simp [List.find?] at h
  | cons x t ih =>
      by_cases hx : p x
      · rw [List.find?_cons_of_pos _ hx] at h
        rw [List.cons_append, List.find?_cons_of_pos _ hx]
        exact h
      · rw [List.find?_cons_of_neg _ hx] at h
        rw [List.cons_append, List.find?_cons_of_neg _ hx]
        exact ih h

theorem find?_append_of_none {α : Type} {p : α → Bool} {l₁ : List α}
    (l₂ : List α) (h : l₁.find? p = none) :
    (l₁ ++ l₂).find? p = l₂.find? p := by
  induction l₁ with
  | nil => simp
  | cons x t ih =>
      by_cases hx : p x
      · rw [List.find?_cons_of_pos _ hx] at h
        exact absurd h (by simp)
      · rw [List.find?_cons_of_neg _ hx] at h
        rw [List.cons_append, List.find?_cons_of_neg _ hx]
        exact ih h

theorem any_eq_filter_pos {α : Type} (p : α → Bool) (l : List α) :
    l.any p = decide (0 < (l.filter p).length) := by
  induction l with
  | nil => simp
  | cons x t ih =>
      by_cases hx : p x <;> simp [List.filter_cons, hx, ih]

/-- The source access check, rewritten: cached flag, or the spec's
payment/subscription predicate. -/
theorem check_user_access_eq (s : DBState) (tid : Nat) (m : String) :
    check_user_access s tid m = (hasPaidFlag s tid || specHasAccess s tid m) := by
  unfold check_user_access specHasAccess completedPaymentExists activeSubscriptionExists
  by_cases hf : hasPaidFlag s tid
  · simp [hf]
  · simp only [hf, Bool.false_eq_true, if_false, Bool.false_or]
    rw [any_eq_filter_pos, any_eq_filter_pos]
    by_cases hp : 0 < (s.payments.filter fun p =>
        p.telegram_id == tid && p.month_year == m && p.status == "completed").length
    · simp [hp]
    · simp [hp]

theorem create_or_get_user_scores (s : DBState) (tid : Nat) :
    ((create_or_get_user s tid).2).scores = s.scores := by
  unfold create_or_get_user
  cases s.users.find? (fun u => u.telegram_id == tid) <;> rfl

theorem create_or_get_user_payments (s : DBState) (tid : Nat) :
    ((create_or_get_user s tid).2).payments = s.payments := by
  unfold create_or_get_user
  cases s.users.find? (fun u => u.telegram_id == tid) <;> rfl

theorem create_or_get_user_subscriptions (s : DBState) (tid : Nat) :
    ((create_or_get_user s tid).2).subscriptions = s.subscriptions := by
  unfold create_or_get_user
  cases s.users.find? (fun u => u.telegram_id == tid) <;> rfl

/-- Ensuring a user row exists never changes the cached flag `check_user_access`
reads: the inserted row carries the schema default `false`, and an existing
first match stays the first match. -/
theorem hasPaidFlag_create_or_get (s : DBState) (tid tid' : Nat) :
    hasPaidFlag ((create_or_get_user s tid').2) tid = hasPaidFlag s tid := by
  unfold create_or_get_user
  cases hfind : s.users.find? (fun u => u.telegram_id == tid') with
  | some u => rfl
  | none =>
      simp only [hasPaidFlag, flagOf, List.find?_append]
      cases hfind2 : s.users.find? (fun u => u.telegram_id == tid) with
      | some v => simp
      | none =>
          simp only [Option.none_or]
          by_cases h : tid' == tid <;> simp [List.find?, h]

/-- `specHasAccess` only reads payments and subscriptions, which
`create_or_get_user` never touches. -/
theorem specHasAccess_create_or_get (s : DBState) (tid tid' : Nat) (m : String) :
    specHasAccess ((create_or_get_user s tid').2) tid m = specHasAccess s tid m := by
  unfold specHasAccess completedPaymentExists activeSubscriptionExists
  rw [create_or_get_user_payments, create_or_get_user_subscriptions]

theorem countScoresOn_append (l₁ l₂ : List ScoreRow) (tid d : Nat) :
    countScoresOn (l₁ ++ l₂) tid d = countScoresOn l₁ tid d + countScoresOn l₂ tid d := by
  unfold countScoresOn
  rw [List.filter_append, List.length_append]

theorem contains_append_self (l : List String) (x : String) :
    (l ++ [x]).contains x = true := by
  induction l with
  | nil => simp
  | cons a t ih => simp_all

/-- A map that keeps every row's `telegram_id` and never lowers a set flag
preserves a set flag. -/
theorem flagOf_map_mono (l : List UserRow) (tid : Nat) (f : UserRow → UserRow)
    (hid : ∀ u, (f u).telegram_id = u.telegram_id)
    (hfl : ∀ u, u.has_paid_current_month = true → (f u).has_paid_current_month = true)
    (h : flagOf l tid = true) : flagOf (l.map f) tid = true := by
  induction l with
  | nil => simp [flagOf] at h
  | cons u t ih =>
      have hb : ((f u).telegram_id == tid) = (u.telegram_id == tid) := by rw [hid]
      cases h1 : (u.telegram_id == tid) with
      | true =>
          simp only [flagOf, List.map_cons, List.find?_cons, hb, h1] at h ⊢
          simp only [Option.map_some', Option.getD_some] at h ⊢
          exact hfl u h
      | false =>
          simp only [flagOf, List.map_cons, List.find?_cons, hb, h1] at h ⊢
          exact ih h

/-- A map that keeps `telegram_id` and sets the flag of every row of `tid`
makes the flag read `true` as soon as some row of `tid` exists. -/
theorem flagOf_map_of_isSome (l : List UserRow) (tid : Nat) (f : UserRow → UserRow)
    (hid : ∀ u, (f u).telegram_id = u.telegram_id)
    (hval : ∀ u, (u.telegram_id == tid) = true → (f u).has_paid_current_month = true)
    (h : (l.find? fun u => u.telegram_id == tid).isSome = true) :
    flagOf (l.map f) tid = true := by
  induction l with
  | nil => simp [List.find?] at h
  | cons u t ih =>
      have hb : ((f u).telegram_id == tid) = (u.telegram_id == tid) := by rw [hid]
      cases h1 : (u.telegram_id == tid) with
      | true =>
          simp only [flagOf, List.map_cons, List.find?_cons, hb, h1]
          simpa using hval u h1
      | false =>
          simp only [List.find?_cons, h1] at h
          simp only [flagOf, List.map_cons, List.find?_cons, hb, h1]
          exact ih h

/-- After `create_or_get_user`, a row of the user is present. -/
theorem create_or_get_user_isSome (s : DBState) (tid : Nat) :
    (((create_or_get_user s tid).2).users.find?
      fun u => u.telegram_id == tid).isSome = true := by
  unfold create_or_get_user
  cases hfind : s.users.find? (fun u => u.telegram_id == tid) with
  | some u => simp [hfind]
  | none =>
      simp only
      rw [find?_append_of_none _ hfind]
      simp [List.find?]

/-- A set flag survives appending user rows. -/
theorem flagOf_append_mono (l l₂ : List UserRow) (tid : Nat)
    (h : flagOf l tid = true) : flagOf (l ++ l₂) tid = true := by
  unfold flagOf at h ⊢
  cases hfind : l.find? (fun u => u.telegram_id == tid) with
  | some u => rw [find?_append_of_some _ hfind]; rw [hfind] at h; exact h
  | none => rw [hfind] at h; simp at h

/-- The first-appearance distinct list is never longer than its input. -/
theorem firstAppearanceAux_length_le (l : List Nat) :
    ∀ seen, (firstAppearanceAux l seen).length ≤ l.length := by
  induction l with
  | nil => intro seen; simp [firstAppearanceAux]
  | cons x xs ih =>
      intro seen
      unfold firstAppearanceAux
      by_cases h : seen.contains x
      · rw [if_pos h]
        exact Nat.le_succ_of_le (ih seen)
      · rw [if_neg h]
        simpa [List.length_cons] using Nat.succ_le_succ (ih (x :: seen))

theorem mem_insertDesc {e x : LeaderboardEntry} :
    ∀ {l : List LeaderboardEntry}, x ∈ insertDesc e l → x = e ∨ x ∈ l := by
  intro l
  induction l with
  | nil => intro h; simp [insertDesc] at h; exact Or.inl h
  | cons y ys ih =>
      intro h
      unfold insertDesc at h
      by_cases hc : y.best_score ≤ e.best_score
      · rw [if_pos hc] at h
        rcases List.mem_cons.mp h with h | h
        · exact Or.inl h
        · exact Or.inr h
      · rw [if_neg hc] at h
        rcases List.mem_cons.mp h with h | h
        · exact Or.inr (List.mem_cons.mpr (Or.inl h))
        · rcases ih h with h | h
          · exact Or.inl h
          · exact Or.inr (List.mem_cons.mpr (Or.inr h))

theorem pairwise_insertDesc {e : LeaderboardEntry} {l : List LeaderboardEntry}
    (h : l.Pairwise fun a b => b.best_score ≤ a.best_score) :
    (insertDesc e l).Pairwise fun a b => b.best_score ≤ a.best_score := by
  induction l with
  | nil => simp [insertDesc]
  | cons y ys ih =>
      rcases List.pairwise_cons.mp h with ⟨hy, hys⟩
      unfold insertDesc
      by_cases hc : y.best_score ≤ e.best_score
      · rw [if_pos hc]
        refine List.pairwise_cons.mpr ⟨?_, h⟩
        intro b hb
        rcases List.mem_cons.mp hb with rfl | hb
        · exact hc
        · exact le_trans (hy b hb) hc
      · rw [if_neg hc]
        refine List.pairwise_cons.mpr ⟨?_, ih hys⟩
        intro b hb
        rcases mem_insertDesc hb with rfl | hb
        · exact Nat.le_of_not_le hc
        · exact hy b hb

theorem pairwise_sortDesc (l : List LeaderboardEntry) :
    (sortDesc l).Pairwise fun a b => b.best_score ≤ a.best_score := by
  induction l with
  | nil => simp [sortDesc]
  | cons x xs ih => exact pairwise_insertDesc ih

/-- Ensuring a user row exists does not change any daily games count. -/
theorem daily_games_count_create_or_get (s : DBState) (tid tid' d : Nat) :
    daily_games_count ((create_or_get_user s tid').2) tid d
      = daily_games_count s tid d := by
  unfold daily_games_count
  rw [create_or_get_user_scores]

theorem countScoresOn_singleton (r : ScoreRow) (tid d : Nat) :
    countScoresOn [r] tid d
      = if (r.telegram_id == tid && dayKey r.created_at == d) = true then 1 else 0 := by
  unfold countScoresOn
  by_cases h : (r.telegram_id == tid && dayKey r.created_at == d) = true <;>
    simp [List.filter, h]

/-- The rollover never writes to the database: winner notification is an
external side effect and `reset_monthly_leaderboard` returns the store
untouched. -/
theorem check_monthly_reset_db (st : AppState) (d : Nat) (nm pm : String) :
    (check_monthly_reset st d nm pm).db = st.db := by
  unfold check_monthly_reset reset_monthly_leaderboard
  split_ifs <;> rfl

/-! Claim theorems. -/

/-- C1, counterexample: the claim says `check_user_access` is true iff a
completed Payment for the month or an active Subscription exists.  In the
state `stC1` the user has neither, yet the access check grants: it also
consults the cached `has_paid_current_month` user flag. -/
theorem C1_counterexample :
    check_user_access stC1 1 "2025-03" = true
      ∧ specHasAccess stC1 1 "2025-03" = false := by
  exact ⟨rfl, rfl⟩

/-- C1, amended: `check_user_access(u, m)` is true iff the user's cached
`has_paid_current_month` flag is set, OR a completed Payment row for (u, m)
exists, OR an active Subscription row for u exists; it reads no other state
and has no side effects (it is a pure function of the store). -/
theorem C1_access_characterization :
    ∀ (s : DBState) (tid : Nat) (m : String),
      check_user_access s tid m = true ↔
        (hasPaidFlag s tid = true ∨ completedPaymentExists s tid m = true
          ∨ activeSubscriptionExists s tid = true) := by
  intro s tid m
  rw [check_user_access_eq]
  simp [specHasAccess, Bool.or_eq_true, or_assoc]

/-- C5: the prize split is 40% / 15% / 5% / 40% of the sum of completed
payments of the month, the four shares always add up to exactly the total,
and on the spec's scenario (three completed 11.00 payments for 2025-04,
total 33.00) the shares are 13.20 / 4.95 / 1.65 / 13.20. -/
theorem C5_prize_split :
    (∀ (s : DBState) (m : String),
      (calculate_monthly_prizes s m).first + (calculate_monthly_prizes s m).second
        + (calculate_monthly_prizes s m).third
        + (calculate_monthly_prizes s m).organization_fees
        = (calculate_monthly_prizes s m).total_amount)
    ∧ (calculate_monthly_prizes stC5 "2025-04").total_amount = 33
    ∧ (calculate_monthly_prizes stC5 "2025-04").first = 132 / 10
    ∧ (calculate_monthly_prizes stC5 "2025-04").second = 495 / 100
    ∧ (calculate_monthly_prizes stC5 "2025-04").third = 165 / 100
    ∧ (calculate_monthly_prizes stC5 "2025-04").organization_fees = 132 / 10 := by
  refine ⟨?_, ?_, ?_, ?_, ?_, ?_⟩
  · intro s m
    dsimp only [calculate_monthly_prizes]
    ring
  all_goals simp [calculate_monthly_prizes, stC5]; norm_num

/-- C8, counterexample: the claim says the reported `playerCount` is the
number of distinct paying users; in `stC8` one user has two completed
payments for the month and the computation reports 2, not 1 —
`COUNT(*)` counts payment rows. -/
theorem C8_counterexample :
    (calculate_monthly_prizes stC8 "2025-03").total_players = 2
      ∧ distinctPayingUsers stC8 "2025-03" = 1 := by
  exact ⟨rfl, rfl⟩

/-- C8, amended: the reported `playerCount` equals the number of completed
Payment rows for the month (a user with several payments is counted once
per payment); it is always at least the number of distinct paying users. -/
theorem C8_player_count :
    ∀ (s : DBState) (m : String),
      (calculate_monthly_prizes s m).total_players
          = (s.payments.filter fun p =>
              p.month_year == m && p.status == "completed").length
        ∧ distinctPayingUsers s m ≤ (calculate_monthly_prizes s m).total_players := by
  intro s m
  refine ⟨rfl, ?_⟩
  show (firstAppearance _).length ≤ _
  unfold firstAppearance
  simpa [List.length_map] using
    firstAppearanceAux_length_le
      ((s.payments.filter fun p =>
        p.month_year == m && p.status == "completed").map fun p => p.telegram_id) []

/-- C9, counterexample: the claim says a storage error is surfaced to the
caller as a distinct failure, never as an ordinary denial.  In fact
`check_user_access` catches the error and answers the same plain `false` a
no-access user on an empty store receives — there is no distinct failure
in the `Bool` it returns. -/
theorem C9_counterexample :
    check_user_access_handled (Except.error StorageError.unavailable) 5 "2025-03" = false
    ∧ check_user_access_handled (Except.ok emptyDB) 5 "2025-03" = false := by
  exact ⟨rfl, rfl⟩

/-- C9, amended: on a storage error the access decision does fail closed
(access denied, never granted), but the error is not surfaced as a
distinct failure: `check_user_access` swallows it and returns the same
ordinary boolean denial an unpaid user gets, and the competition-mode
`/api/check_access` endpoint — whose database helpers likewise swallow
storage errors — answers with the same ordinary `can_play = false`
denial an unpaid user gets. -/
theorem C9_error_handling :
    (∀ (e : StorageError) (tid : Nat) (m : String),
      check_user_access_handled (Except.error e) tid m = false
      ∧ check_user_access_handled (Except.error e) tid m
          = check_user_access_handled (Except.ok emptyDB) tid m)
    ∧ (∀ (e : StorageError) (tid today : Nat) (m : String),
      check_game_access (Except.error e) tid "competition" m today
          = ⟨false, "competition", false⟩
      ∧ check_game_access (Except.error e) tid "competition" m today
          = check_game_access (Except.ok emptyDB) tid "competition" m today) := by
  exact ⟨fun e tid m => ⟨rfl, rfl⟩, fun e tid today m => ⟨rfl, rfl⟩⟩

/-- C2: once five score rows exist for a user on a UTC+2 day, a further
submission that day by a user passing the access check returns the
quota-exceeded result with `remaining_games = 0` and inserts no score row;
and one submission step never pushes any user's daily count beyond five. -/
theorem C2_daily_quota :
    (∀ (s : DBState) (tid score now : Nat) (m : String),
      check_user_access ((create_or_get_user s tid).2) tid m = true →
      5 ≤ daily_games_count s tid (dayKey now) →
      (add_score s tid score now m).1
          = AddScoreResult.quotaExceeded (daily_games_count s tid (dayKey now)) 0
        ∧ ((add_score s tid score now m).2).scores = s.scores)
    ∧ (∀ (s : DBState) (tid tid' score now d : Nat) (m : String),
      daily_games_count s tid' d ≤ 5 →
      daily_games_count ((add_score s tid score now m).2) tid' d ≤ 5) := by
  constructor
  · intro s tid score now m hacc hcount
    have hd : daily_games_count ((create_or_get_user s tid).2) tid (dayKey now)
        = daily_games_count s tid (dayKey now) :=
      daily_games_count_create_or_get s tid tid (dayKey now)
    unfold add_score
    dsimp only
    rw [if_pos hacc, hd, if_pos hcount]
    exact ⟨rfl, create_or_get_user_scores s tid⟩
  · intro s tid tid' score now d m h
    unfold add_score
    dsimp only
    split_ifs with h1 h2 h3
    · show daily_games_count ((create_or_get_user s tid).2) tid' d ≤ 5
      rw [daily_games_count_create_or_get]
      exact h
    · show countScoresOn ((create_or_get_user s tid).2.scores
          ++ [⟨tid, score, m, now⟩]) tid' d ≤ 5
      rw [create_or_get_user_scores, countScoresOn_append, countScoresOn_singleton]
      rw [daily_games_count_create_or_get] at h2
      by_cases hm : ((tid : Nat) == tid' && dayKey now == d) = true
      · rw [if_pos hm]
        obtain ⟨hm1, hm2⟩ : tid = tid' ∧ dayKey now = d := by simpa using hm
        subst hm1
        subst hm2
        have hlt : daily_games_count s tid (dayKey now) < 5 := Nat.lt_of_not_le h2
        exact hlt
      · rw [if_neg hm, Nat.add_zero]
        exact h
    · show countScoresOn ((create_or_get_user s tid).2.scores
          ++ [⟨tid, score, m, now⟩]) tid' d ≤ 5
      rw [create_or_get_user_scores, countScoresOn_append, countScoresOn_singleton]
      rw [daily_games_count_create_or_get] at h2
      by_cases hm : ((tid : Nat) == tid' && dayKey now == d) = true
      · rw [if_pos hm]
        obtain ⟨hm1, hm2⟩ : tid = tid' ∧ dayKey now = d := by simpa using hm
        subst hm1
        subst hm2
        have hlt : daily_games_count s tid (dayKey now) < 5 := Nat.lt_of_not_le h2
        exact hlt
      · rw [if_neg hm, Nat.add_zero]
        exact h
    · show daily_games_count ((create_or_get_user s tid).2) tid' d ≤ 5
      rw [daily_games_count_create_or_get]
      exact h

/-- C2, witness: in `stC2W` user 4 already holds five scores on day 0;
submitting at timestamp 5 (same day) is refused with remaining 0, no row
is inserted, and the count stays within the quota. -/
theorem C2_daily_quota_witness :
    ((add_score stC2W 4 999 5 "2025-03").1
        = AddScoreResult.quotaExceeded (daily_games_count stC2W 4 (dayKey 5)) 0
      ∧ ((add_score stC2W 4 999 5 "2025-03").2).scores = stC2W.scores)
    ∧ daily_games_count ((add_score stC2W 4 999 5 "2025-03").2) 4 0 ≤ 5 :=
  ⟨C2_daily_quota.1 stC2W 4 999 5 "2025-03" (by decide) (by decide),
   C2_daily_quota.2 stC2W 4 4 999 5 0 "2025-03" (by decide)⟩

/-- C10, counterexample: the claim calls a user "without access" when they
have no completed payment for the month and no active subscription.  User 3
in `stC10` is such a user, but their cached flag is set, so the submission
is accepted and a score row IS inserted — not the claimed AccessDenied. -/
theorem C10_counterexample :
    (add_score stC10 3 500 1000 "2025-03").1 = AddScoreResult.accepted 1 4 false
    ∧ ((add_score stC10 3 500 1000 "2025-03").2).scores.length = 1
    ∧ completedPaymentExists stC10 3 "2025-03" = false
    ∧ activeSubscriptionExists stC10 3 = false := by
  exact ⟨rfl, rfl, rfl, rfl⟩

/-- C10, amended: for a user whose cached flag is unset and who has no
completed payment for the current month and no active subscription,
submitting a score returns the access-denied result and inserts no score
row (hence every daily attempt count is unchanged). -/
theorem C10_access_denied :
    ∀ (s : DBState) (tid score now : Nat) (m : String),
      hasPaidFlag s tid = false →
      completedPaymentExists s tid m = false →
      activeSubscriptionExists s tid = false →
      (add_score s tid score now m).1 = AddScoreResult.accessDenied
      ∧ ((add_score s tid score now m).2).scores = s.scores := by
  intro s tid score now m hf hp hs
  have hacc : check_user_access ((create_or_get_user s tid).2) tid m = false := by
    rw [check_user_access_eq, hasPaidFlag_create_or_get]
    unfold specHasAccess completedPaymentExists activeSubscriptionExists
    rw [create_or_get_user_payments, create_or_get_user_subscriptions]
    unfold completedPaymentExists at hp
    unfold activeSubscriptionExists at hs
    rw [hf, hp, hs]
    rfl
  unfold add_score
  dsimp only
  rw [hacc]
  exact ⟨rfl, create_or_get_user_scores s tid⟩

/-- C10, witness: on the empty store, user 8 has neither flag, payment nor
subscription, and the submission is denied without touching the scores. -/
theorem C10_access_denied_witness :
    (add_score emptyDB 8 100 0 "2025-01").1 = AddScoreResult.accessDenied
    ∧ ((add_score emptyDB 8 100 0 "2025-01").2).scores = emptyDB.scores :=
  C10_access_denied emptyDB 8 100 0 "2025-01" rfl rfl rfl

/-- C3, counterexample: the claim says equal best scores are ranked by
earliest achieving timestamp.  In `stC3` users 1 and 2 both have best score
100; user 2 reached it at timestamp 50, user 1 only at 100, yet the
leaderboard lists user 1 first — the query orders by `best_score DESC`
alone and never consults timestamps. -/
theorem C3_counterexample :
    (get_leaderboard stC3 "2025-03" 10).map (fun e => e.telegram_id) = [1, 2]
    ∧ (get_leaderboard stC3 "2025-03" 10).map (fun e => e.best_score) = [100, 100]
    ∧ earliestTimestampAt stC3 "2025-03" 1 100 = some 100
    ∧ earliestTimestampAt stC3 "2025-03" 2 100 = some 50
    ∧ (50 : Nat) < 100 := by
  exact ⟨rfl, rfl, rfl, rfl, by decide⟩

/-- C3, amended: the leaderboard is sorted by best score in descending
order; the order among entries with equal best score follows the grouping
order of the query (not the earliest achieving timestamp). -/
theorem C3_leaderboard_sorted :
    ∀ (s : DBState) (m : String) (limit : Nat),
      (get_leaderboard s m limit).Pairwise
        fun a b => b.best_score ≤ a.best_score := by
  intro s m limit
  unfold get_leaderboard
  dsimp only
  exact List.Pairwise.sublist (List.take_sublist _ _) (pairwise_sortDesc _)

/-- C6, counterexample: the claim says the rollover marks the closed
month's one-off payments of non-subscribers as expired.  In `stC6` user 7
is a non-subscriber with a completed one-off payment for the closed month
2025-03; after the rollover the payment row is untouched and no row at all
has status `expired`. -/
theorem C6_counterexample :
    ((check_monthly_reset stC6 1 "2025-04" "2025-03").db).payments
        = [⟨7, 11, "one_time", "2025-03", "completed"⟩]
    ∧ activeSubscriptionExists (check_monthly_reset stC6 1 "2025-04" "2025-03").db 7
        = false
    ∧ (((check_monthly_reset stC6 1 "2025-04" "2025-03").db).payments.filter
        fun p => p.status == "expired").length = 0 := by
  refine ⟨?_, ?_, ?_⟩ <;> rw [check_monthly_reset_db] <;> rfl

/-- C6, amended: the deployed rollover (`check_monthly_reset` with the
no-op `reset_monthly_leaderboard`) leaves every Payment row — indeed the
whole database — unchanged; no payment is ever marked expired. -/
theorem C6_rollover_payments_unchanged :
    ∀ (st : AppState) (d : Nat) (nm pm : String),
      ((check_monthly_reset st d nm pm).db).payments = st.db.payments
      ∧ (check_monthly_reset st d nm pm).db = st.db := by
  intro st d nm pm
  exact ⟨by rw [check_monthly_reset_db], check_monthly_reset_db st d nm pm⟩

/-- On day 1 with the marker present, the rollover is a no-op. -/
theorem check_monthly_reset_of_marker (st : AppState) (nm pm : String)
    (hc : st.reset_flags.contains nm = true) :
    check_monthly_reset st 1 nm pm = st := by
  unfold check_monthly_reset
  rw [if_pos rfl, if_pos hc]

/-- On day 1 with the marker absent, the rollover emits the notification
batch for the closed month, leaves the database as is, and writes the
marker. -/
theorem check_monthly_reset_run (st : AppState) (nm pm : String)
    (hc : ¬ st.reset_flags.contains nm = true) :
    check_monthly_reset st 1 nm pm =
      { db := st.db, reset_flags := st.reset_flags ++ [nm],
        winnerEvents := st.winnerEvents ++ [(pm, get_monthly_winners st.db pm)] } := by
  unfold check_monthly_reset reset_monthly_leaderboard
  rw [if_pos rfl, if_neg hc]

/-- C4, counterexample: the claim says two successive rollover invocations
for the same closed month produce exactly one MonthlyWinnersRecord.  The
store has no winners table: after two invocations the winners-record count
for the closed month is 0, not 1 (only a notification batch was emitted). -/
theorem C4_counterexample :
    monthlyWinnersRecordCount
        ((check_monthly_reset (check_monthly_reset emptyApp 1 "2025-04" "2025-03")
          1 "2025-04" "2025-03").db) "2025-03" = 0
    ∧ (check_monthly_reset (check_monthly_reset emptyApp 1 "2025-04" "2025-03")
          1 "2025-04" "2025-03").winnerEvents.length = 1
    ∧ (0 : Nat) ≠ 1 := by
  exact ⟨rfl, rfl, by decide⟩

/-- C4, amended: the marker file makes the second invocation a no-op
(`check_monthly_reset` is idempotent), the close-of-month work — the
winner-notification batch for the closed month — happens exactly once when
the marker was absent, and no MonthlyWinnersRecord is persisted at all
(the schema has no winners table, so the count stays 0). -/
theorem C4_rollover_idempotent :
    (∀ (st : AppState) (d : Nat) (nm pm : String),
      check_monthly_reset (check_monthly_reset st d nm pm) d nm pm
        = check_monthly_reset st d nm pm)
    ∧ (∀ (st : AppState) (nm pm : String),
      st.reset_flags.contains nm = false →
      (check_monthly_reset (check_monthly_reset st 1 nm pm) 1 nm pm).winnerEvents
        = st.winnerEvents ++ [(pm, get_monthly_winners st.db pm)])
    ∧ (∀ (st : AppState) (d : Nat) (nm pm m : String),
      monthlyWinnersRecordCount (check_monthly_reset st d nm pm).db m = 0) := by
  refine ⟨?_, ?_, fun st d nm pm m => rfl⟩
  · intro st d nm pm
    by_cases hd : d = 1
    · subst hd
      by_cases hc : st.reset_flags.contains nm = true
      · rw [check_monthly_reset_of_marker st nm pm hc,
          check_monthly_reset_of_marker st nm pm hc]
      · rw [check_monthly_reset_run st nm pm hc,
          check_monthly_reset_of_marker _ nm pm (contains_append_self st.reset_flags nm)]
    · unfold check_monthly_reset
      rw [if_neg hd, if_neg hd]
  · intro st nm pm hc
    rw [check_monthly_reset_run st nm pm (by rw [hc]; exact Bool.false_ne_true),
      check_monthly_reset_of_marker _ nm pm (contains_append_self st.reset_flags nm)]

/-- C4, witness: on the fresh app state the marker for 2025-06 is absent;
two invocations on day 1 leave exactly the single notification batch for
the closed month 2025-05. -/
theorem C4_rollover_idempotent_witness :
    (check_monthly_reset (check_monthly_reset emptyApp 1 "2025-06" "2025-05")
        1 "2025-06" "2025-05").winnerEvents
      = emptyApp.winnerEvents
          ++ [("2025-05", get_monthly_winners emptyApp.db "2025-05")] :=
  C4_rollover_idempotent.2.1 emptyApp "2025-06" "2025-05" rfl

/-- Score submission never touches the `has_paid_current_month` flag. -/
theorem hasPaidFlag_add_score (s : DBState) (tid tid' score now : Nat) (m : String) :
    hasPaidFlag ((add_score s tid' score now m).2) tid = hasPaidFlag s tid := by
  unfold add_score
  dsimp only
  split_ifs <;> exact hasPaidFlag_create_or_get s tid tid'

/-- `record_payment` sets the payer's flag. -/
theorem hasPaidFlag_record_payment_self (s : DBState) (tid : Nat)
    (amount : Rat) (pt m : String) :
    hasPaidFlag ((record_payment s tid amount pt m).2) tid = true := by
  unfold record_payment setPaidFlag
  dsimp only
  apply flagOf_map_of_isSome
  · intro u
    by_cases hb : u.telegram_id == tid <;> simp [hb]
  · intro u hu
    simp [hu]
  · exact create_or_get_user_isSome s tid

/-- `record_payment` never lowers any user's flag. -/
theorem hasPaidFlag_record_payment_mono (s : DBState) (tid tid' : Nat)
    (amount : Rat) (pt m : String) (h : hasPaidFlag s tid = true) :
    hasPaidFlag ((record_payment s tid' amount pt m).2) tid = true := by
  unfold record_payment setPaidFlag
  dsimp only
  apply flagOf_map_mono
  · intro u
    by_cases hb : u.telegram_id == tid' <;> simp [hb]
  · intro u hu
    by_cases hb : u.telegram_id == tid' <;> simp [hb, hu]
  · show hasPaidFlag ((create_or_get_user s tid').2) tid = true
    rw [hasPaidFlag_create_or_get]
    exact h

/-- Subscription creation never touches the flag. -/
theorem hasPaidFlag_create_subscription (s : DBState) (tid tid' : Nat)
    (subId : String) (amount : Rat) :
    hasPaidFlag ((create_subscription s tid' subId amount).2) tid
      = hasPaidFlag s tid := by
  unfold create_subscription
  dsimp only
  exact hasPaidFlag_create_or_get s tid tid'

/-- C7: `record_payment` sets the user's denormalized
`has_paid_current_month` flag; no core operation (score submission,
payment recording, subscription creation or cancellation, monthly
rollover) ever clears any user's set flag; and a set flag makes
`check_user_access` return true for every month key — so a paying user
keeps access in every subsequent month with no further payment or
subscription. -/
theorem C7_paid_flag_persists :
    (∀ (s : DBState) (tid : Nat) (amount : Rat) (ptype m : String),
      hasPaidFlag ((record_payment s tid amount ptype m).2) tid = true)
    ∧ (∀ (st : AppState) (op : LedgerOp) (tid : Nat),
      hasPaidFlag st.db tid = true → hasPaidFlag ((step st op).db) tid = true)
    ∧ (∀ (s : DBState) (tid : Nat) (m : String),
      hasPaidFlag s tid = true → check_user_access s tid m = true) := by
  refine ⟨fun s tid amount ptype m =>
    hasPaidFlag_record_payment_self s tid amount ptype m, ?_, ?_⟩
  · intro st op tid h
    cases op with
    | submitScore tid' score now month =>
        show hasPaidFlag ((add_score st.db tid' score now month).2) tid = true
        rw [hasPaidFlag_add_score]
        exact h
    | recordPayment tid' amount ptype month =>
        exact hasPaidFlag_record_payment_mono st.db tid tid' amount ptype month h
    | createSubscription tid' subId amount =>
        show hasPaidFlag ((create_subscription st.db tid' subId amount).2) tid = true
        rw [hasPaidFlag_create_subscription]
        exact h
    | cancelSubscription subId => exact h
    | monthlyRollover day nm pm =>
        show hasPaidFlag ((check_monthly_reset st day nm pm).db) tid = true
        rw [check_monthly_reset_db]
        exact h
  · intro s tid m h
    unfold check_user_access
    rw [if_pos h]

/-- C7, witness: recording a payment on the empty store sets user 1's
flag; a cancellation step keeps user 2's set flag in `stFlagApp`; and in
`stFlag` the set flag grants access for a far-future month. -/
theorem C7_paid_flag_persists_witness :
    hasPaidFlag ((record_payment emptyDB 1 11 "one_time" "2025-03").2) 1 = true
    ∧ hasPaidFlag ((step stFlagApp (LedgerOp.cancelSubscription "SUB1")).db) 2 = true
    ∧ check_user_access stFlag 2 "2099-12" = true :=
  ⟨C7_paid_flag_persists.1 emptyDB 1 11 "one_time" "2025-03",
   C7_paid_flag_persists.2.1 stFlagApp (LedgerOp.cancelSubscription "SUB1") 2 rfl,
   C7_paid_flag_persists.2.2 stFlag 2 "2099-12" rfl⟩

end DinoChallenge
